import Mathlib

/-!
Verification of the `lib_ims` library: a shallow embedding of
`lib_ims/utils.py`, `lib_ims/db/ims_file.py` and `lib_ims/db/ims_db.py`,
together with theorems settling the specification claims about them.

Filesystem, JSON documents and Python runtime errors are modelled
explicitly; every Python function relevant to the claims is translated
into an executable Lean definition that follows the source line by line.
-/

/-- Python runtime errors that the embedded code can raise. -/
inductive PyErr where
  /-- `KeyError` raised by `d[key]` on a dict without `key`. -/
  | keyError (key : String)
  /-- `TypeError`, e.g. subscripting a non-dict with a string or `int(None)`. -/
  | typeError
  /-- `ValueError`, e.g. `datetime.fromisoformat` on a malformed string. -/
  | valueError
  /-- `json.JSONDecodeError` raised by `json.loads` on invalid input. -/
  | jsonDecodeError
  /-- `AssertionError` raised by a failed `assert`. -/
  | assertionError
deriving DecidableEq, Repr

/-- JSON values, the result type of `json.loads`. Objects are stored as
association lists in document order; `json.loads` keeps the last value of a
duplicated key, which `lookupLast` below accounts for. -/
inductive Json where
  | str (s : String)
  | num (n : Int)
  | bool (b : Bool)
  | null
  | arr (elems : List Json)
  | obj (fields : List (String × Json))

/-- Dict lookup as produced by `json.loads`: the last binding of a duplicated
key wins, hence the reverse before the first-match lookup. -/
def lookupLast (key : String) (fields : List (String × Json)) : Option Json :=
  fields.reverse.lookup key

/-- Python subscript `j[key]` with a string key: on a dict it returns the
bound value or raises `KeyError`; on any other JSON value it raises
`TypeError`. -/
def pyGetItem (j : Json) (key : String) : Except PyErr Json :=
  match j with
  | .obj fields =>
    match lookupLast key fields with
    | some v => .ok v
    | none => .error (.keyError key)
  | _ => .error .typeError

/-- Python equality `j == key` between a JSON value and a string: `True`
exactly on the equal string (Python `==` across types is `False`). -/
def jsonEqStr (key : String) : Json → Bool
  | .str s => s == key
  | _ => false

/-- Python membership test `key in j` for a string key: key test on dicts,
element test on lists, substring test on strings, `TypeError` otherwise. -/
def pyInOp (key : String) (j : Json) : Except PyErr Bool :=
  match j with
  | .obj fields => .ok (fields.any (fun kv => kv.1 == key))
  | .arr elems => .ok (elems.any (jsonEqStr key))
  | .str s => .ok (((s.splitOn key).length > 1) || (key == ""))
  | _ => .error .typeError

/-- Model of a `datetime.datetime` value: the six calendar components. -/
structure PyDateTime where
  year : Nat
  month : Nat
  day : Nat
  hour : Nat
  minute : Nat
  second : Nat
deriving DecidableEq, Repr

/-- Injective (on calendar-valid values) encoding of a `PyDateTime` into a
natural number whose order coincides with `datetime` comparison. -/
def PyDateTime.val (d : PyDateTime) : Nat :=
  ((((d.year * 13 + d.month) * 32 + d.day) * 24 + d.hour) * 60 + d.minute) * 60 + d.second

/-- `datetime` comparison `a <= b`, via the order-faithful encoding. -/
def PyDateTime.le (a b : PyDateTime) : Bool :=
  Nat.ble a.val b.val

/-- Numeric value of two decimal digit characters. -/
def digits2 (c1 c2 : Char) : Option Nat :=
  if c1.isDigit && c2.isDigit then
    some ((c1.toNat - 48) * 10 + (c2.toNat - 48))
  else none

/-- Numeric value of four decimal digit characters. -/
def digits4 (c1 c2 c3 c4 : Char) : Option Nat :=
  match digits2 c1 c2, digits2 c3 c4 with
  | some hi, some lo => some (hi * 100 + lo)
  | _, _ => none

/-- Validated construction of a `PyDateTime`: `datetime` rejects
out-of-range components with a `ValueError` (day validation is modelled
with the uniform bound 31). -/
def mkPyDateTime (y mo d h mi s : Nat) : Option PyDateTime :=
  if 1 ≤ mo && mo ≤ 12 && 1 ≤ d && d ≤ 31 && h ≤ 23 && mi ≤ 59 && s ≤ 59 then
    some ⟨y, mo, d, h, mi, s⟩
  else none

/-- Model of `datetime.datetime.fromisoformat`, restricted to the
`YYYY-MM-DD` and `YYYY-MM-DD<sep>HH:MM:SS` forms used by the dataset
(fractional seconds and timezone offsets are out of scope); any other
string yields `none`, modelling the `ValueError` the original raises. -/
def fromisoformat (s : String) : Option PyDateTime :=
  match s.toList with
  | [y1, y2, y3, y4, '-', m1, m2, '-', d1, d2] =>
    match digits4 y1 y2 y3 y4, digits2 m1 m2, digits2 d1 d2 with
    | some y, some mo, some d => mkPyDateTime y mo d 0 0 0
    | _, _, _ => none
  | [y1, y2, y3, y4, '-', m1, m2, '-', d1, d2, sep, h1, h2, ':', mi1, mi2, ':', s1, s2] =>
    if sep = 'T' || sep = ' ' then
      match digits4 y1 y2 y3 y4, digits2 m1 m2, digits2 d1 d2,
            digits2 h1 h2, digits2 mi1 mi2, digits2 s1 s2 with
      | some y, some mo, some d, some h, some mi, some sc => mkPyDateTime y mo d h mi sc
      | _, _, _, _, _, _ => none
    else none
  | _ => none

/-- One immediate child of the catalog's base directory: its file name and
the result of `json.loads` on its content (`none` when the content is not
valid JSON; irrelevant for telemetry files, which are never parsed). -/
structure FileEntry where
  name : String
  jsonContent : Option Json

/-- The base directory: its list of immediate children in `iterdir` order. -/
abbrev FsDir := List FileEntry

/-- Resolve a file name inside the directory (directory entries have unique
names on a real filesystem, so first match is the file). -/
def fsLookup : FsDir → String → Option FileEntry
  | [], _ => none
  | e :: rest, n => if e.name == n then some e else fsLookup rest n

/-- `Path.exists()` for a path inside the base directory. -/
def fsExists (fs : FsDir) (n : String) : Bool :=
  (fsLookup fs n).isSome

/-! ### `lib_ims/db/ims_file.py` -/

/-- `ImsFile`: a database entry as a pair of telemetry data and static data.
`static_data` is the JSON representation of the file at `path_static`. -/
structure ImsFile where
  path_telemetry : String
  path_static : String
  static_data : Json

/-- `ImsFile.__init__` followed by `prepare`: assert that both paths exist
(`AssertionError` otherwise), then `json.loads` the static file's bytes
(`JSONDecodeError` when they are not valid JSON). -/
def ImsFile.init (fs : FsDir) (path_telemetry path_static : String) : Except PyErr ImsFile :=
  match fsLookup fs path_telemetry, fsLookup fs path_static with
  | some _, some staticEntry =>
    match staticEntry.jsonContent with
    | some j => .ok ⟨path_telemetry, path_static, j⟩
    | none => .error .jsonDecodeError
  | _, _ => .error .assertionError

/-- `ImsFile.start_time`: `datetime.fromisoformat(static_data['startTime'])`.
A missing key raises `KeyError`, a non-string raises `TypeError`, a
malformed string raises `ValueError`. -/
def ImsFile.start_time (f : ImsFile) : Except PyErr PyDateTime :=
  match pyGetItem f.static_data "startTime" with
  | .ok (.str s) =>
    match fromisoformat s with
    | some dt => .ok dt
    | none => .error .valueError
  | .ok _ => .error .typeError
  | .error e => .error e

/-- `ImsFile.player_id`: `static_data['playerId']`. -/
def ImsFile.player_id (f : ImsFile) : Except PyErr Json :=
  pyGetItem f.static_data "playerId"

/-- `ImsFile.track_id`: `static_data['track']['name']`. -/
def ImsFile.track_id (f : ImsFile) : Except PyErr Json :=
  match pyGetItem f.static_data "track" with
  | .ok track => pyGetItem track "name"
  | .error e => .error e

/-- `ImsFile.simulator_id`: `static_data['simulator']`. -/
def ImsFile.simulator_id (f : ImsFile) : Except PyErr Json :=
  pyGetItem f.static_data "simulator"

/-- `ImsFile.n_players`: `static_data['numCars']`. -/
def ImsFile.n_players (f : ImsFile) : Except PyErr Json :=
  pyGetItem f.static_data "numCars"

/-- `ImsFile.is_with_ai_players`: `n_players > 1`; comparing a non-integer
against `1` raises `TypeError`. -/
def ImsFile.is_with_ai_players (f : ImsFile) : Except PyErr Bool :=
  match f.n_players with
  | .ok (.num n) => .ok (1 < n)
  | .ok _ => .error .typeError
  | .error e => .error e

/-- `ImsFile.extra_info`: `static_data['extra_info']`; a document without
the key raises `KeyError`. -/
def ImsFile.extra_info (f : ImsFile) : Except PyErr Json :=
  pyGetItem f.static_data "extra_info"

/-- `ImsFile.global_session_number`: `extra_info['session_number_global']`
when the key is contained in `extra_info`, `None` otherwise. -/
def ImsFile.global_session_number (f : ImsFile) : Except PyErr (Option Json) :=
  match f.extra_info with
  | .error e => .error e
  | .ok info =>
    match pyInOp "session_number_global" info with
    | .error e => .error e
    | .ok true =>
      match pyGetItem info "session_number_global" with
      | .ok v => .ok (some v)
      | .error e => .error e
    | .ok false => .ok none

/-! ### `lib_ims/db/ims_db.py` -/

/-- The discovery test of `_load_file_index`: `file_path.name[-4:] == 'json'`
(the last four characters of the name; note the dot is not part of the
test). -/
def isMetaCandidate (name : String) : Bool :=
  name.takeRight 4 == "json"

/-- The sibling path computed by `_load_file_index`:
`abs_path_str[:-4] + 'csv'`, i.e. the name with its last four characters
replaced by `csv`. -/
def expectedCsvName (name : String) : String :=
  name.dropRight 4 ++ "csv"

/-- One step of `_load_file_index` per directory entry, iterating `rest`
while existence checks and `ImsFile` construction consult the whole
directory `fs`. Yields the constructed recordings and the warning messages
(identified by the missing telemetry path); an exception from `ImsFile`
construction aborts the whole scan. -/
def loadFileIndexAux (fs : FsDir) : List FileEntry → Except PyErr (List ImsFile × List String)
  | [] => .ok ([], [])
  | e :: rest =>
    if isMetaCandidate e.name then
      let csvName := expectedCsvName e.name
      if fsExists fs csvName then
        match ImsFile.init fs csvName e.name with
        | .error err => .error err
        | .ok f =>
          match loadFileIndexAux fs rest with
          | .error err => .error err
          | .ok (recs, warns) => .ok (f :: recs, warns)
      else
        match loadFileIndexAux fs rest with
        | .error err => .error err
        | .ok (recs, warns) => .ok (recs, csvName :: warns)
    else loadFileIndexAux fs rest

/-- `ImsDatabase._load_file_index` over the whole base directory. -/
def loadFileIndex (fs : FsDir) : Except PyErr (List ImsFile × List String) :=
  loadFileIndexAux fs fs

/-- `ImsDatabase`: the catalog state after a `refresh`, i.e. the list of
recordings in discovery order. -/
structure ImsDatabase where
  recordings : List ImsFile

/-- `ImsDatabase.__init__` / `refresh`: assert the path is a directory, then
rebuild `recordings` from `_load_file_index` (warnings are logged, not
stored). -/
def ImsDatabase.refresh (fs : FsDir) : Except PyErr ImsDatabase :=
  match loadFileIndex fs with
  | .error e => .error e
  | .ok (recs, _warns) => .ok ⟨recs⟩

/-- `ImsDatabase.n_recordings`. -/
def ImsDatabase.n_recordings (db : ImsDatabase) : Nat :=
  db.recordings.length

/-- The key extraction performed by `sorted(..., key=lambda sess: sess.start_time)`:
each element is decorated with its key, in list order; the first failing
key computation aborts with its exception. -/
def startTimeKeys : List ImsFile → Except PyErr (List (ImsFile × PyDateTime))
  | [] => .ok []
  | f :: rest =>
    match f.start_time with
    | .error e => .error e
    | .ok k =>
      match startTimeKeys rest with
      | .error e => .error e
      | .ok pairs => .ok ((f, k) :: pairs)

/-- Comparison of decorated elements by their `start_time` key. -/
def keyLe (a b : ImsFile × PyDateTime) : Bool :=
  PyDateTime.le a.2 b.2

/-- `ImsDatabase.__iter__`: `sorted(self.recordings, key=lambda sess: sess.start_time)`.
Python's `sorted` is a stable sort comparing the extracted keys, modelled
by a stable merge sort over the decorated list. -/
def ImsDatabase.iter (db : ImsDatabase) : Except PyErr (List ImsFile) :=
  match startTimeKeys db.recordings with
  | .error e => .error e
  | .ok pairs => .ok ((pairs.mergeSort keyLe).map Prod.fst)

/-! ### `lib_ims/utils.py` -/

/-- One value of the `IMS_DATASET_META` mapping. -/
structure DatasetMeta where
  url : String
  description : String
  licence_notice : String
deriving DecidableEq, Repr

/-- The static dataset-version registry `IMS_DATASET_META`, in insertion
order. Underscored entries are excluded from the public interface. -/
def IMS_DATASET_META : List (String × DatasetMeta) :=
  [("ims_racing_1_paper",
    { url := "https://micloud.hs-mittweida.de/index.php/s/CFdk5cGjFp3Mpba/download/ims_racing1_paper.zip"
      description := "Dataset as described in the IMSRacing Publication"
      licence_notice := "Attribution-ShareAlike 4.0 International. Please take note of the included licence.txt file" }),
   ("_dev_test_small",
    { url := "https://micloud.hs-mittweida.de/index.php/s/zRe5G4nS7rBGJxq/download/dev_test_small.zip"
      description := "Dev dataset (only contains a subset of data; you shouldn\x27t use it"
      licence_notice := "Please take note of the included licence in the licence.txt file." })]

/-- The default of the `version` parameter of `download_db`. -/
def DEFAULT_VERSION : String := "latest"

/-- Python `key.startswith('_')`: whether the first character is `_`
(`False` on the empty string). -/
def strStartsWithUnderscore (s : String) : Bool :=
  match s.toList with
  | c :: _ => c == '_'
  | [] => false

/-- Python `int(s)` restricted to the decimal digit strings a
`Content-Length` header carries; any other string raises `ValueError`
(signs and surrounding whitespace are out of scope). -/
def pyIntParse (s : String) : Option Nat :=
  match s.toList with
  | [] => none
  | cs =>
    if cs.all Char.isDigit then
      some (cs.foldl (fun a c => a * 10 + (c.toNat - 48)) 0)
    else none

/-- How the streamed HTTP GET inside `download_db` can end: the body
completes (its bytes either forming a valid zip file or not), or an
exception is raised mid-stream. -/
inductive NetworkOutcome where
  | success (isZip : Bool) (nbytes : Nat)
  | netError
deriving DecidableEq, Repr

/-- The exceptions `download_db` can propagate: the two failed `assert`s,
a mid-stream network error, and the `ImsException` for an invalid zip. -/
inductive DbError where
  | notADirectory
  | unknownVersion
  | networkError
  | notAZipFile
deriving DecidableEq, Repr

/-- Observable outcome of one `download_db` call: its return/raise status
and the filesystem/network effects relevant to the claims. -/
structure DownloadOutcome where
  result : Except DbError Unit
  networkOpened : Bool
  tempFileCreated : Bool
  tempFileRemains : Bool
  extracted : Bool

/-- `download_db(version, target_path)` as a function of the version
string, whether the target path is an existing directory, and the network
outcome. Follows the source order: the directory assert, the registry
assert, then `open(download_path, 'wb')` (creating the temp file) and the
awaited download; only the validation/extraction block that follows is
wrapped in `try/finally`, so its `os.remove` cleanup runs after successful
extraction and after failed zip validation, but a mid-stream network
exception propagates before the `try` is entered and leaves the temp file
in place. -/
def download_db (version : String) (targetIsDir : Bool) (network : NetworkOutcome) :
    DownloadOutcome :=
  if !targetIsDir then
    { result := .error .notADirectory, networkOpened := false,
      tempFileCreated := false, tempFileRemains := false, extracted := false }
  else
    match IMS_DATASET_META.lookup version with
    | none =>
      { result := .error .unknownVersion, networkOpened := false,
        tempFileCreated := false, tempFileRemains := false, extracted := false }
    | some _meta =>
      match network with
      | .netError =>
        { result := .error .networkError, networkOpened := true,
          tempFileCreated := true, tempFileRemains := true, extracted := false }
      | .success isZip _nbytes =>
        if isZip then
          { result := .ok (), networkOpened := true,
            tempFileCreated := true, tempFileRemains := false, extracted := true }
        else
          { result := .error .notAZipFile, networkOpened := true,
            tempFileCreated := true, tempFileRemains := false, extracted := false }

/-- `get_ims_versions()`: the (identifier, description, licence notice)
tuples of the registry entries whose identifier does not start with `_`. -/
def get_ims_versions : List (String × String × String) :=
  (IMS_DATASET_META.filter (fun kv => !(strStartsWithUnderscore kv.1))).map
    (fun kv => (kv.1, kv.2.description, kv.2.licence_notice))

/-- Errors of `_async_get_url`: `int(None)` raises `TypeError`,
`int` of a non-numeric string raises `ValueError`. -/
inductive HttpErr where
  | typeError
  | valueError
deriving DecidableEq, Repr

/-- `int(rsp.headers.get('Content-Length'))`: the header access yields
`None` when the header is absent, and `int(None)` raises `TypeError`;
a present header is parsed as a decimal number (`ValueError` otherwise). -/
def pyIntOfHeader : Option String → Except HttpErr Nat
  | none => .error .typeError
  | some s =>
    match pyIntParse s with
    | some n => .ok n
    | none => .error .valueError

/-- One progress log line of `_async_get_url`: either the percentage form
(content length and the byte count the percentage was computed from) or
the literal "of unknown size" form. -/
inductive ProgressStr where
  | ofTotal (contentLength downloadedBefore : Nat)
  | unknownSize
deriving DecidableEq, Repr

/-- The chunked read loop of `_async_get_url`: for each chunk the progress
string is built from the byte count before the chunk is added, the counter
is advanced and the chunk written, and the line is logged when the new
counter is a multiple of 5 MiB. Returns the logged lines and the total
byte count. -/
def downloadChunks (content_length : Nat) : List Nat → Nat → List ProgressStr × Nat
  | [], acc => ([], acc)
  | c :: cs, acc =>
    let progress :=
      if content_length ≠ 0 then ProgressStr.ofTotal content_length acc
      else ProgressStr.unknownSize
    let acc2 := acc + c
    let (rest, total) := downloadChunks content_length cs acc2
    (if acc2 % (1024 * 1024 * 5) = 0 then progress :: rest else rest, total)

/-- `_async_get_url` as a function of the `Content-Length` header and the
list of (non-empty) chunk sizes delivered by the response body: parse the
header with `int`, then run the read loop. -/
def async_get_url (contentLengthHeader : Option String) (chunks : List Nat) :
    Except HttpErr (List ProgressStr × Nat) :=
  match pyIntOfHeader contentLengthHeader with
  | .error e => .error e
  | .ok n => .ok (downloadChunks n chunks 0)

/-! ### Derived notions used to state the claims -/

/-- A directory entry that the scan considers and pairs: it passes the
metadata-candidate test and its expected telemetry sibling exists. -/
def pairedB (fs : FsDir) (e : FileEntry) : Bool :=
  isMetaCandidate e.name && fsExists fs (expectedCsvName e.name)

/-- A directory entry that the scan considers but cannot pair: the
expected telemetry sibling is missing, producing one warning. -/
def unpairedB (fs : FsDir) (e : FileEntry) : Bool :=
  isMetaCandidate e.name && !(fsExists fs (expectedCsvName e.name))

/-- `N`: the number of metadata candidates with an existing sibling. -/
def countPaired (fs : FsDir) : Nat :=
  (fs.filter (pairedB fs)).length

/-- `M`: the number of metadata candidates without a sibling. -/
def countUnpaired (fs : FsDir) : Nat :=
  (fs.filter (unpairedB fs)).length

/-- The sort key of a recording as a natural number, defaulting to `0` on
a failing `start_time` (only used where all keys are known to succeed). -/
def startKeyD (f : ImsFile) : Nat :=
  match f.start_time with
  | .ok d => d.val
  | .error _ => 0

/-! ### Helper lemmas -/

/-- A directory entry can be found under its own name. -/
theorem mem_fsLookup_isSome (fs : FsDir) (e : FileEntry) (he : e ∈ fs) :
    (fsLookup fs e.name).isSome := by
  induction fs with
  | nil => cases he
  | cons a rest ih =>
    by_cases hn : (a.name == e.name) = true
    · simp [fsLookup, hn]
    · rcases List.mem_cons.mp he with h1 | h2
      · subst h1; simp at hn
      · simpa [fsLookup, hn] using ih h2

/-- Characterization of the scan: when every paired candidate's metadata
resolves to valid JSON, the scan succeeds, its recordings are exactly the
paired candidates in discovery order (static path the candidate's name,
telemetry path the substituted sibling), and its warnings are exactly the
missing sibling paths of the unpaired candidates. -/
theorem loadFileIndexAux_spec (fs : FsDir) (l : List FileEntry)
    (h : ∀ e ∈ l, pairedB fs e = true →
      ∃ e' j, fsLookup fs e.name = some e' ∧ e'.jsonContent = some j) :
    ∃ recs warns, loadFileIndexAux fs l = .ok (recs, warns) ∧
      recs.map ImsFile.path_static = (l.filter (pairedB fs)).map FileEntry.name ∧
      recs.map ImsFile.path_telemetry =
        (l.filter (pairedB fs)).map (fun e => expectedCsvName e.name) ∧
      warns = (l.filter (unpairedB fs)).map (fun e => expectedCsvName e.name) := by
  induction l with
  | nil => exact ⟨[], [], rfl, rfl, rfl, rfl⟩
  | cons e rest ih =>
    obtain ⟨recs, warns, hrun, hstat, htel, hwarn⟩ :=
      ih (fun x hx => h x (List.mem_cons_of_mem _ hx))
    by_cases hc : isMetaCandidate e.name = true
    · by_cases hex : fsExists fs (expectedCsvName e.name) = true
      · have hp : pairedB fs e = true := by simp [pairedB, hc, hex]
        obtain ⟨e', j, hlook, hjson⟩ := h e (List.mem_cons_self _ _) hp
        obtain ⟨ec, hcsv⟩ := Option.isSome_iff_exists.mp hex
        refine ⟨⟨expectedCsvName e.name, e.name, j⟩ :: recs, warns, ?_, ?_, ?_, ?_⟩
        · simp only [loadFileIndexAux, hc, hex, if_true, ImsFile.init, hcsv, hlook, hjson, hrun]
        · simpa [List.filter_cons, hp] using hstat
        · simpa [List.filter_cons, hp] using htel
        · have hup : unpairedB fs e = false := by simp [unpairedB, hc, hex]
          simpa [List.filter_cons, hup] using hwarn
      · have hp : pairedB fs e = false := by simp [pairedB, hex]
        have hup : unpairedB fs e = true := by
          simp [unpairedB, hc]
          exact Bool.not_eq_true _ ▸ (by simpa using hex)
        refine ⟨recs, expectedCsvName e.name :: warns, ?_, ?_, ?_, ?_⟩
        · simp [loadFileIndexAux, hc, hex, hrun]
        · simpa [List.filter_cons, hp] using hstat
        · simpa [List.filter_cons, hp] using htel
        · simpa [List.filter_cons, hup] using hwarn
    · have hp : pairedB fs e = false := by simp [pairedB, hc]
      have hup : unpairedB fs e = false := by simp [unpairedB, hc]
      refine ⟨recs, warns, ?_, ?_, ?_, ?_⟩
      · simpa only [loadFileIndexAux, hc, if_false] using hrun
      · simpa [List.filter_cons, hp] using hstat
      · simpa [List.filter_cons, hp] using htel
      · simpa [List.filter_cons, hup] using hwarn

/-- Key extraction keeps the elements: the decorated list projects back to
the input list. -/
theorem startTimeKeys_map_fst {l : List ImsFile} {ps : List (ImsFile × PyDateTime)}
    (h : startTimeKeys l = .ok ps) : ps.map Prod.fst = l := by
  induction l generalizing ps with
  | nil =>
    simp only [startTimeKeys] at h
    cases h
    rfl
  | cons f rest ih =>
    simp only [startTimeKeys] at h
    cases hf : f.start_time with
    | error e => rw [hf] at h; cases h
    | ok k =>
      rw [hf] at h
      cases hr : startTimeKeys rest with
      | error e => rw [hr] at h; cases h
      | ok pairs =>
        rw [hr] at h
        cases h
        simp [ih hr]

/-- Every decorated element carries the key its recording computes. -/
theorem startTimeKeys_mem {l : List ImsFile} {ps : List (ImsFile × PyDateTime)}
    (h : startTimeKeys l = .ok ps) :
    ∀ p ∈ ps, p.1.start_time = .ok p.2 := by
  induction l generalizing ps with
  | nil =>
    simp only [startTimeKeys] at h
    cases h
    intro p hp
    cases hp
  | cons f rest ih =>
    simp only [startTimeKeys] at h
    cases hf : f.start_time with
    | error e => rw [hf] at h; cases h
    | ok k =>
      rw [hf] at h
      cases hr : startTimeKeys rest with
      | error e => rw [hr] at h; cases h
      | ok pairs =>
        rw [hr] at h
        cases h
        intro p hp
        rcases List.mem_cons.mp hp with h1 | h2
        · subst h1; exact hf
        · exact ih hr p h2

/-- The key comparison is transitive. -/
theorem keyLe_trans : ∀ a b c : ImsFile × PyDateTime, keyLe a b → keyLe b c → keyLe a c := by
  intro a b c hab hbc
  simp only [keyLe, PyDateTime.le, Nat.ble_eq] at *
  omega

/-- The key comparison is total. -/
theorem keyLe_total : ∀ a b : ImsFile × PyDateTime, keyLe a b || keyLe b a := by
  intro a b
  simp only [keyLe, PyDateTime.le, Nat.ble_eq, Bool.or_eq_true]
  omega

/-! ### Claim theorems -/

/-- C10: `get_ims_versions` is a pure function over the static registry
returning one (identifier, description, licence notice) tuple for every
entry whose identifier does not start with `_` and none for entries that
do; on the shipped registry of one public and one underscore-prefixed
entry it returns exactly one tuple. -/
theorem get_ims_versions_public_only :
    get_ims_versions =
      [("ims_racing_1_paper", "Dataset as described in the IMSRacing Publication",
        "Attribution-ShareAlike 4.0 International. Please take note of the included licence.txt file")] ∧
    get_ims_versions.length = 1 ∧
    (IMS_DATASET_META.all fun kv =>
      ((get_ims_versions.map fun t => t.1).contains kv.1) == !(strStartsWithUnderscore kv.1)) = true ∧
    (IMS_DATASET_META.all fun kv =>
      (get_ims_versions.contains (kv.1, kv.2.description, kv.2.licence_notice)) ==
        !(strStartsWithUnderscore kv.1)) = true :=
  ⟨rfl, rfl, rfl, rfl⟩

/-- C8: with no `Content-Length` header the chunked download does not
complete and report "unknown size" as claimed: `int(None)` raises
`TypeError` before the first chunk is read. With a reported content
length every emitted progress line carries the percentage form. -/
theorem async_get_url_missing_content_length_raises :
    async_get_url none [1048576] = .error .typeError ∧
    async_get_url (some "10485760") [5242880, 5242880] =
      .ok ([.ofTotal 10485760 0, .ofTotal 10485760 5242880], 10485760) :=
  ⟨rfl, rfl⟩

/-- C5: with the default version argument `'latest'`, `download_db` always
fails with the unknown-version error before any network I/O or file
creation, for every existing target directory: `'latest'` is not a key of
the static registry. -/
theorem download_db_default_version_unknown (dir : Bool) (net : NetworkOutcome)
    (hdir : dir = true) :
    IMS_DATASET_META.lookup DEFAULT_VERSION = none ∧
    download_db DEFAULT_VERSION dir net =
      { result := .error .unknownVersion, networkOpened := false,
        tempFileCreated := false, tempFileRemains := false, extracted := false } := by
  subst hdir
  have hl : IMS_DATASET_META.lookup DEFAULT_VERSION = none := rfl
  exact ⟨hl, by simp [download_db, hl]⟩

/-- Witness for C5 at the network-error outcome and an existing directory. -/
theorem download_db_default_version_unknown_witness :
    IMS_DATASET_META.lookup DEFAULT_VERSION = none ∧
    download_db DEFAULT_VERSION true .netError =
      { result := .error .unknownVersion, networkOpened := false,
        tempFileCreated := false, tempFileRemains := false, extracted := false } :=
  download_db_default_version_unknown true .netError rfl

/-- C9: every version identifier missing from the registry makes
`download_db` fail with the unknown-version error before opening a network
connection or creating a file (given an existing target directory), while
any registry entry — including the underscore-prefixed internal one —
never hits that error. -/
theorem download_db_unknown_version_fails_fast (v : String) (dir : Bool) (net : NetworkOutcome)
    (hv : IMS_DATASET_META.lookup v = none) (hdir : dir = true) :
    download_db v dir net =
      { result := .error .unknownVersion, networkOpened := false,
        tempFileCreated := false, tempFileRemains := false, extracted := false } ∧
    (IMS_DATASET_META.lookup "_dev_test_small").isSome = true ∧
    (∀ (v2 : String) (net2 : NetworkOutcome) (m : DatasetMeta),
      IMS_DATASET_META.lookup v2 = some m →
      (download_db v2 true net2).result ≠ .error .unknownVersion) := by
  subst hdir
  refine ⟨by simp [download_db, hv], rfl, ?_⟩
  intro v2 net2 m hm
  cases net2 with
  | netError => simp [download_db, hm]
  | success isZip nbytes => cases isZip <;> simp [download_db, hm]

/-- Witness for C9 at a concrete unknown identifier. -/
theorem download_db_unknown_version_fails_fast_witness :
    download_db "unknown_version_xyz" true .netError =
      { result := .error .unknownVersion, networkOpened := false,
        tempFileCreated := false, tempFileRemains := false, extracted := false } ∧
    (IMS_DATASET_META.lookup "_dev_test_small").isSome = true ∧
    (∀ (v2 : String) (net2 : NetworkOutcome) (m : DatasetMeta),
      IMS_DATASET_META.lookup v2 = some m →
      (download_db v2 true net2).result ≠ .error .unknownVersion) :=
  download_db_unknown_version_fails_fast "unknown_version_xyz" true .netError rfl rfl

/-- C1 counterexample: a mid-stream network exception during the download
of a resolvable version into an existing directory creates the temporary
file and propagates the error with the temporary file still present —
cleanup is not guaranteed for this outcome. -/
theorem download_db_netError_leaves_tempfile :
    (download_db "ims_racing_1_paper" true .netError).tempFileCreated = true ∧
    (download_db "ims_racing_1_paper" true .netError).tempFileRemains = true ∧
    (download_db "ims_racing_1_paper" true .netError).result = .error .networkError :=
  ⟨rfl, rfl, rfl⟩

/-- C1 (amended): once the network download completes, the temporary file
is deleted both after successful extraction and after failed zip
validation; only an exception raised mid-stream during the network
download leaves the temporary file behind, because it propagates before
the `try/finally` cleanup block is entered. -/
theorem download_db_cleanup_amended (v : String) (isZip : Bool) (nbytes : Nat)
    (hv : (IMS_DATASET_META.lookup v).isSome = true) :
    ((download_db v true (.success isZip nbytes)).tempFileCreated = true ∧
     (download_db v true (.success isZip nbytes)).tempFileRemains = false) ∧
    ((download_db v true .netError).tempFileCreated = true ∧
     (download_db v true .netError).tempFileRemains = true) := by
  obtain ⟨m, hm⟩ := Option.isSome_iff_exists.mp hv
  refine ⟨?_, by simp [download_db, hm]⟩
  cases isZip <;> simp [download_db, hm]

/-- Witness for C1 (amended) at the shipped public version. -/
theorem download_db_cleanup_amended_witness :
    ((download_db "ims_racing_1_paper" true (.success false 128)).tempFileCreated = true ∧
     (download_db "ims_racing_1_paper" true (.success false 128)).tempFileRemains = false) ∧
    ((download_db "ims_racing_1_paper" true .netError).tempFileCreated = true ∧
     (download_db "ims_racing_1_paper" true .netError).tempFileRemains = true) :=
  download_db_cleanup_amended "ims_racing_1_paper" false 128 rfl

/-- The Bool form of "every paired metadata candidate holds valid JSON",
decidable so that concrete directories can discharge it by evaluation. -/
def allPairedValidJson (fs : FsDir) : Bool :=
  fs.all fun e =>
    !(pairedB fs e) || ((fsLookup fs e.name).bind FileEntry.jsonContent).isSome

/-- Unfolding of `allPairedValidJson` into the existential form used by the
scan characterization. -/
theorem allPairedValidJson_spec (fs : FsDir) (h : allPairedValidJson fs = true) :
    ∀ e ∈ fs, pairedB fs e = true →
      ∃ e' j, fsLookup fs e.name = some e' ∧ e'.jsonContent = some j := by
  intro e he hp
  have := List.all_eq_true.mp h e he
  rw [hp] at this
  simp only [Bool.not_true, Bool.false_or] at this
  cases hl : fsLookup fs e.name with
  | none => rw [hl] at this; simp [Option.bind] at this
  | some e' =>
    rw [hl] at this
    simp only [Option.bind] at this
    cases hj : e'.jsonContent with
    | none => rw [hj] at this; simp at this
    | some j => exact ⟨e', j, rfl, hj⟩

/-- C2 counterexample: a directory with one metadata file that has an
existing telemetry sibling (N = 1, M = 0) but whose content is not valid
JSON makes the scan raise a parse error instead of producing a catalog of
one entry with no warnings. -/
theorem refresh_invalid_json_pair_aborts :
    countPaired [⟨"a.json", none⟩, ⟨"a.csv", none⟩] = 1 ∧
    countUnpaired [⟨"a.json", none⟩, ⟨"a.csv", none⟩] = 0 ∧
    loadFileIndex [⟨"a.json", none⟩, ⟨"a.csv", none⟩] = .error .jsonDecodeError ∧
    ImsDatabase.refresh [⟨"a.json", none⟩, ⟨"a.csv", none⟩] = .error .jsonDecodeError :=
  ⟨rfl, rfl, rfl, rfl⟩

/-- C2 (amended): for every base directory with N paired and M unpaired
metadata candidates in which every paired candidate's content is valid
JSON, the scan succeeds, the catalog's entry count equals N, and exactly
M warnings are logged. -/
theorem refresh_counts_amended (fs : FsDir) (hvalid : allPairedValidJson fs = true) :
    ∃ recs warns, loadFileIndex fs = .ok (recs, warns) ∧
      recs.length = countPaired fs ∧
      warns.length = countUnpaired fs ∧
      ∃ db, ImsDatabase.refresh fs = .ok db ∧ db.n_recordings = countPaired fs := by
  obtain ⟨recs, warns, hrun, hstat, htel, hwarn⟩ :=
    loadFileIndexAux_spec fs fs (allPairedValidJson_spec fs hvalid)
  have hlen : recs.length = countPaired fs := by
    have := congrArg List.length hstat
    simpa [countPaired] using this
  refine ⟨recs, warns, hrun, hlen, ?_, ⟨recs⟩, ?_, hlen⟩
  · rw [hwarn]; simp [countUnpaired]
  · simp [ImsDatabase.refresh, loadFileIndex] at hrun ⊢
    rw [hrun]

/-- Witness for C2 (amended): one paired pair, one unpaired metadata file,
one unrelated file. -/
theorem refresh_counts_amended_witness :
    ∃ recs warns,
      loadFileIndex [⟨"x.json", some (.obj [])⟩, ⟨"x.csv", none⟩,
                     ⟨"y.json", some (.obj [])⟩, ⟨"notes.txt", none⟩] = .ok (recs, warns) ∧
      recs.length = countPaired [⟨"x.json", some (.obj [])⟩, ⟨"x.csv", none⟩,
                     ⟨"y.json", some (.obj [])⟩, ⟨"notes.txt", none⟩] ∧
      warns.length = countUnpaired [⟨"x.json", some (.obj [])⟩, ⟨"x.csv", none⟩,
                     ⟨"y.json", some (.obj [])⟩, ⟨"notes.txt", none⟩] ∧
      ∃ db, ImsDatabase.refresh [⟨"x.json", some (.obj [])⟩, ⟨"x.csv", none⟩,
                     ⟨"y.json", some (.obj [])⟩, ⟨"notes.txt", none⟩] = .ok db ∧
        db.n_recordings = countPaired [⟨"x.json", some (.obj [])⟩, ⟨"x.csv", none⟩,
                     ⟨"y.json", some (.obj [])⟩, ⟨"notes.txt", none⟩] :=
  refresh_counts_amended _ rfl

/-- C3 counterexample: a file named `abjson` does not carry the `.json`
extension, yet the scan considers it a metadata candidate and pairs it
with `abcsv` — the discovery test is on the last four characters `json`,
not on the `.json` extension. -/
theorem scan_pairs_non_dot_json :
    ("abjson".takeRight 5 == ".json") = false ∧
    loadFileIndex [⟨"abjson", some (.obj [])⟩, ⟨"abcsv", none⟩] =
      .ok ([⟨"abcsv", "abjson", .obj []⟩], []) :=
  ⟨rfl, rfl⟩

/-- C3 (amended): the candidate set is exactly the immediate children
whose name's last four characters are `json` (a dot is not required), and
the sibling checked for existence is the name with those four characters
replaced by `csv` (which for `<stem>.json` files is `<stem>.csv`);
provided every paired candidate holds valid JSON, the scan's recordings
and warnings are exactly the paired and unpaired candidates in order. -/
theorem scan_candidates_amended (fs : FsDir) (hvalid : allPairedValidJson fs = true) :
    ∃ recs warns, loadFileIndex fs = .ok (recs, warns) ∧
      recs.map ImsFile.path_static = (fs.filter (pairedB fs)).map FileEntry.name ∧
      recs.map ImsFile.path_telemetry =
        (fs.filter (pairedB fs)).map (fun e => expectedCsvName e.name) ∧
      warns = (fs.filter (unpairedB fs)).map (fun e => expectedCsvName e.name) ∧
      (∀ name : String, isMetaCandidate name = true ↔ name.takeRight 4 = "json") ∧
      (∀ name : String, expectedCsvName name = name.dropRight 4 ++ "csv") := by
  obtain ⟨recs, warns, hrun, hstat, htel, hwarn⟩ :=
    loadFileIndexAux_spec fs fs (allPairedValidJson_spec fs hvalid)
  exact ⟨recs, warns, hrun, hstat, htel, hwarn,
    fun name => by simp [isMetaCandidate], fun name => rfl⟩

/-- Witness for C3 (amended) at the counterexample directory: the paired
candidate is the extensionless `abjson`. -/
theorem scan_candidates_amended_witness :
    ∃ recs warns,
      loadFileIndex [⟨"abjson", some (.obj [])⟩, ⟨"abcsv", none⟩] = .ok (recs, warns) ∧
      recs.map ImsFile.path_static =
        (([⟨"abjson", some (.obj [])⟩, ⟨"abcsv", none⟩] : FsDir).filter
          (pairedB [⟨"abjson", some (.obj [])⟩, ⟨"abcsv", none⟩])).map FileEntry.name ∧
      recs.map ImsFile.path_telemetry =
        (([⟨"abjson", some (.obj [])⟩, ⟨"abcsv", none⟩] : FsDir).filter
          (pairedB [⟨"abjson", some (.obj [])⟩, ⟨"abcsv", none⟩])).map
          (fun e => expectedCsvName e.name) ∧
      warns = (([⟨"abjson", some (.obj [])⟩, ⟨"abcsv", none⟩] : FsDir).filter
          (unpairedB [⟨"abjson", some (.obj [])⟩, ⟨"abcsv", none⟩])).map
          (fun e => expectedCsvName e.name) ∧
      (∀ name : String, isMetaCandidate name = true ↔ name.takeRight 4 = "json") ∧
      (∀ name : String, expectedCsvName name = name.dropRight 4 ++ "csv") :=
  scan_candidates_amended _ rfl

/-- C4 counterexample: a metadata document that is valid JSON (`{}`) and
misses every required field still constructs successfully from existing
telemetry and metadata paths; the errors surface only on the accessors,
as `KeyError`s. -/
theorem imsfile_missing_fields_constructs :
    ImsFile.init [⟨"a.csv", none⟩, ⟨"a.json", some (.obj [])⟩] "a.csv" "a.json" =
      .ok ⟨"a.csv", "a.json", .obj []⟩ ∧
    (ImsFile.mk "a.csv" "a.json" (.obj [])).start_time = .error (.keyError "startTime") ∧
    (ImsFile.mk "a.csv" "a.json" (.obj [])).player_id = .error (.keyError "playerId") ∧
    (ImsFile.mk "a.csv" "a.json" (.obj [])).track_id = .error (.keyError "track") ∧
    (ImsFile.mk "a.csv" "a.json" (.obj [])).simulator_id = .error (.keyError "simulator") ∧
    (ImsFile.mk "a.csv" "a.json" (.obj [])).n_players = .error (.keyError "numCars") :=
  ⟨rfl, rfl, rfl, rfl, rfl, rfl⟩

/-- C4 (amended): construction only checks that both paths exist and that
the metadata parses as JSON; a valid-JSON document missing a required
field constructs successfully, and each missing field surfaces as a
`KeyError` when its accessor is called. -/
theorem imsfile_lazy_field_errors_amended (fs : FsDir) (tName sName : String)
    (es : FileEntry) (fields : List (String × Json))
    (ht : (fsLookup fs tName).isSome = true) (hs : fsLookup fs sName = some es)
    (hj : es.jsonContent = some (.obj fields)) :
    ImsFile.init fs tName sName = .ok ⟨tName, sName, .obj fields⟩ ∧
    (lookupLast "startTime" fields = none →
      (ImsFile.mk tName sName (.obj fields)).start_time = .error (.keyError "startTime")) ∧
    (lookupLast "playerId" fields = none →
      (ImsFile.mk tName sName (.obj fields)).player_id = .error (.keyError "playerId")) ∧
    (lookupLast "track" fields = none →
      (ImsFile.mk tName sName (.obj fields)).track_id = .error (.keyError "track")) ∧
    (lookupLast "simulator" fields = none →
      (ImsFile.mk tName sName (.obj fields)).simulator_id = .error (.keyError "simulator")) ∧
    (lookupLast "numCars" fields = none →
      (ImsFile.mk tName sName (.obj fields)).n_players = .error (.keyError "numCars")) := by
  obtain ⟨et, het⟩ := Option.isSome_iff_exists.mp ht
  refine ⟨by simp [ImsFile.init, het, hs, hj], ?_, ?_, ?_, ?_, ?_⟩
  · intro hk; simp [ImsFile.start_time, pyGetItem, hk]
  · intro hk; simp [ImsFile.player_id, pyGetItem, hk]
  · intro hk; simp [ImsFile.track_id, pyGetItem, hk]
  · intro hk; simp [ImsFile.simulator_id, pyGetItem, hk]
  · intro hk; simp [ImsFile.n_players, pyGetItem, hk]

/-- Witness for C4 (amended) at a document with one unrelated field. -/
theorem imsfile_lazy_field_errors_amended_witness :
    ImsFile.init [⟨"a.csv", none⟩, ⟨"a.json", some (.obj [("foo", .null)])⟩] "a.csv" "a.json" =
      .ok ⟨"a.csv", "a.json", .obj [("foo", .null)]⟩ ∧
    (lookupLast "startTime" [("foo", Json.null)] = none →
      (ImsFile.mk "a.csv" "a.json" (.obj [("foo", .null)])).start_time =
        .error (.keyError "startTime")) ∧
    (lookupLast "playerId" [("foo", Json.null)] = none →
      (ImsFile.mk "a.csv" "a.json" (.obj [("foo", .null)])).player_id =
        .error (.keyError "playerId")) ∧
    (lookupLast "track" [("foo", Json.null)] = none →
      (ImsFile.mk "a.csv" "a.json" (.obj [("foo", .null)])).track_id =
        .error (.keyError "track")) ∧
    (lookupLast "simulator" [("foo", Json.null)] = none →
      (ImsFile.mk "a.csv" "a.json" (.obj [("foo", .null)])).simulator_id =
        .error (.keyError "simulator")) ∧
    (lookupLast "numCars" [("foo", Json.null)] = none →
      (ImsFile.mk "a.csv" "a.json" (.obj [("foo", .null)])).n_players =
        .error (.keyError "numCars")) :=
  imsfile_lazy_field_errors_amended _ "a.csv" "a.json" _ _ rfl rfl rfl

/-- C7 counterexample: a successfully constructed entry whose JSON document
has no `extra_info` key raises `KeyError` from the `extra_info` accessor
(it does not return an empty mapping), and `global_session_number`
propagates that error instead of returning the "absent" result. -/
theorem extra_info_keyerror_counterexample :
    ImsFile.init [⟨"b.csv", none⟩, ⟨"b.json", some (.obj [])⟩] "b.csv" "b.json" =
      .ok ⟨"b.csv", "b.json", .obj []⟩ ∧
    (ImsFile.mk "b.csv" "b.json" (.obj [])).extra_info = .error (.keyError "extra_info") ∧
    (ImsFile.mk "b.csv" "b.json" (.obj [])).global_session_number =
      .error (.keyError "extra_info") :=
  ⟨rfl, rfl, rfl⟩

/-- C7 (amended): when the JSON document has no `extra_info` key, both the
`extra_info` accessor and `global_session_number` raise `KeyError`; the
"absent" (`None`) result of `global_session_number` is produced exactly
when `extra_info` is present but lacks `session_number_global`. -/
theorem extra_info_amended (f : ImsFile) (fields : List (String × Json))
    (hf : f.static_data = .obj fields) :
    (lookupLast "extra_info" fields = none →
      f.extra_info = .error (.keyError "extra_info") ∧
      f.global_session_number = .error (.keyError "extra_info")) ∧
    (∀ efields : List (String × Json),
      lookupLast "extra_info" fields = some (.obj efields) →
      efields.any (fun kv => kv.1 == "session_number_global") = false →
      f.global_session_number = .ok none) := by
  constructor
  · intro hnone
    have h1 : f.extra_info = .error (.keyError "extra_info") := by
      simp [ImsFile.extra_info, pyGetItem, hf, hnone]
    exact ⟨h1, by simp [ImsFile.global_session_number, h1]⟩
  · intro efields hsome hnokey
    have h1 : f.extra_info = .ok (.obj efields) := by
      simp [ImsFile.extra_info, pyGetItem, hf, hsome]
    simp [ImsFile.global_session_number, h1, pyInOp, hnokey]

/-- Witness for C7 (amended) at a document without the key and one with an
`extra_info` mapping lacking `session_number_global`. -/
theorem extra_info_amended_witness :
    (lookupLast "extra_info" [("extra_info", Json.obj [("other", .num 3)])] = none →
      (ImsFile.mk "c.csv" "c.json"
        (.obj [("extra_info", .obj [("other", .num 3)])])).extra_info =
        .error (.keyError "extra_info") ∧
      (ImsFile.mk "c.csv" "c.json"
        (.obj [("extra_info", .obj [("other", .num 3)])])).global_session_number =
        .error (.keyError "extra_info")) ∧
    (∀ efields : List (String × Json),
      lookupLast "extra_info" [("extra_info", Json.obj [("other", .num 3)])] =
        some (.obj efields) →
      efields.any (fun kv => kv.1 == "session_number_global") = false →
      (ImsFile.mk "c.csv" "c.json"
        (.obj [("extra_info", .obj [("other", .num 3)])])).global_session_number =
        .ok none) :=
  extra_info_amended _ _ rfl

/-- C6: when every recording's `start_time` evaluates (the condition for
`sorted` to run at all), iterating the catalog succeeds and yields a
permutation of the stored recordings that is sorted non-decreasingly by
`start_time`; ties keep their stored relative order (stability), and
iterating twice without a refresh yields the same sequence. -/
theorem iter_sorted_stable (db : ImsDatabase) (pairs : List (ImsFile × PyDateTime))
    (h : startTimeKeys db.recordings = .ok pairs) :
    ∃ out, db.iter = .ok out ∧
      out.Pairwise (fun f g => startKeyD f ≤ startKeyD g) ∧
      out.Perm db.recordings ∧
      (∀ a b : ImsFile × PyDateTime, List.Sublist [a, b] pairs → a.2.val = b.2.val →
        List.Sublist [a.1, b.1] out) ∧
      db.iter = db.iter := by
  refine ⟨(pairs.mergeSort keyLe).map Prod.fst, ?_, ?_, ?_, ?_, rfl⟩
  · simp [ImsDatabase.iter, h]
  · have hs := List.sorted_mergeSort keyLe_trans keyLe_total pairs
    rw [List.pairwise_map]
    refine hs.imp_of_mem ?_
    intro a b ha hb hab
    have ha' := startTimeKeys_mem h a (List.mem_mergeSort.mp ha)
    have hb' := startTimeKeys_mem h b (List.mem_mergeSort.mp hb)
    simp only [startKeyD, ha', hb']
    simpa only [keyLe, PyDateTime.le, Nat.ble_eq] using hab
  · have hperm := (List.mergeSort_perm pairs keyLe).map Prod.fst
    rwa [startTimeKeys_map_fst h] at hperm
  · intro a b hab hval
    have hle : keyLe a b := by
      simp only [keyLe, PyDateTime.le, Nat.ble_eq, hval, Nat.le_refl]
    exact (List.pair_sublist_mergeSort keyLe_trans keyLe_total hle hab).map Prod.fst

/-- Witness for C6 at a two-entry catalog whose stored order is reversed
in time. -/
theorem iter_sorted_stable_witness :
    ∃ out,
      (ImsDatabase.mk
        [⟨"a.csv", "a.json", .obj [("startTime", .str "2023-05-01T10:00:00")]⟩,
         ⟨"b.csv", "b.json", .obj [("startTime", .str "2022-01-01T00:00:00")]⟩]).iter = .ok out ∧
      out.Pairwise (fun f g => startKeyD f ≤ startKeyD g) ∧
      out.Perm
        [⟨"a.csv", "a.json", .obj [("startTime", .str "2023-05-01T10:00:00")]⟩,
         ⟨"b.csv", "b.json", .obj [("startTime", .str "2022-01-01T00:00:00")]⟩] ∧
      (∀ a b : ImsFile × PyDateTime,
        List.Sublist [a, b]
          [(⟨"a.csv", "a.json", .obj [("startTime", .str "2023-05-01T10:00:00")]⟩,
            ⟨2023, 5, 1, 10, 0, 0⟩),
           (⟨"b.csv", "b.json", .obj [("startTime", .str "2022-01-01T00:00:00")]⟩,
            ⟨2022, 1, 1, 0, 0, 0⟩)] →
        a.2.val = b.2.val → List.Sublist [a.1, b.1] out) ∧
      (ImsDatabase.mk
        [⟨"a.csv", "a.json", .obj [("startTime", .str "2023-05-01T10:00:00")]⟩,
         ⟨"b.csv", "b.json", .obj [("startTime", .str "2022-01-01T00:00:00")]⟩]).iter =
      (ImsDatabase.mk
        [⟨"a.csv", "a.json", .obj [("startTime", .str "2023-05-01T10:00:00")]⟩,
         ⟨"b.csv", "b.json", .obj [("startTime", .str "2022-01-01T00:00:00")]⟩]).iter :=
  iter_sorted_stable _ _ rfl
